import Mathlib

/-!
Verification of the Multiple_Doc_QA document question-answering pipeline.

This file shallowly embeds the core of `backend/processors.py`
(`DocumentProcessor.process_document` and the per-format extractors) and
`backend/agent.py` (`answer_question`, the two-node pipeline of
`build_qa_graph`, and `DocumentQAAgent.run`).

External effects (pandas, docx2txt, PyPDF2, pypandoc, the filesystem, the
Groq LLM call) are abstracted into an `Env` record of oracles: each oracle
returns either the value the library call produced or the exception it
raised (`Except PyErr`).  Every embedded operation additionally returns the
list of external calls it performed (`List ExtCall`), so that properties of
the form "the LLM is never invoked" or "the xlrd engine is retried" are
statements about that trace.

Python string primitives used by the source (`str.strip`, `str.lower`,
slicing, `str.replace`, `str.split()`, `os.path.splitext`) are embedded as
character-list functions with the exact Python semantics.
-/

namespace DocQA

/-- A raised Python exception: whether it is an `ImportError` (the Excel
extractor treats those specially) and its `str(e)` message. -/
structure PyErr where
  isImport : Bool
  msg : String
deriving DecidableEq, Repr, Inhabited

/-- Metadata dictionary attached to a single `Document` by the extractors
(`schema.Document.metadata`); only the keys that the source ever writes. -/
structure DocMeta where
  source : Option String := none
  file_type : Option String := none
  sheet : Option String := none
  page : Option Nat := none
  extraction_method : Option String := none
deriving DecidableEq, Repr, Inhabited

/-- `schema.Document`: one extracted content block. -/
structure Document where
  page_content : String
  metadata : DocMeta := {}
deriving DecidableEq, Repr, Inhabited

/-- The state-level `metadata` dictionary written by the extractors
(keys `file_type`, `document_count`, `content_length`, optionally
`page_count`). -/
structure StateMeta where
  file_type : String
  document_count : Nat
  content_length : Nat
  page_count : Option Nat := none
deriving DecidableEq, Repr, Inhabited

/-- `schema.AgentState` (a `TypedDict` with `total=False`): absent keys are
modelled as `none`.  The `question` key is always set by
`DocumentQAAgent.run`, so it is modelled as a plain string. -/
structure AgentState where
  file_path : Option String := none
  pre_processed_content : Option String := none
  question : String := ""
  documents : Option (List Document) := none
  metadata : Option StateMeta := none
  answer : Option String := none
  error : Option String := none
deriving DecidableEq, Repr, Inhabited

/-- One external (library / process / network) call performed by the
pipeline.  `llm` records the document context and question that were sent. -/
inductive ExtCall where
  | readExcel (engine : String)
  | docx2txt
  | pandocConvertFile
  | pdfRead
  | readText
  | pptDirect
  | pptSubprocess
  | pptAuto
  | llm (context : String) (question : String)
deriving DecidableEq, Repr

/-- Oracles for every external call the embedded code can make.  An
`Except.error` value means the library call raised that exception. -/
structure Env where
  openpyxlInstalled : Bool
  readExcelOpenpyxl : Except PyErr (List (String × String))
  readExcelXlrd : Except PyErr (List (String × String))
  docxText : Except PyErr String
  pandocConvert : Except PyErr String
  pdfPages : Except PyErr (List String)
  readTextFile : Except PyErr String
  pptFileExists : Bool
  pptFileSize : Nat
  pandocPathEnvVar : Option String
  getPandocPath : Except PyErr String
  osKnownPandocPath : Option String
  whichPandoc : Option String
  pptConvertExplicit : Except PyErr String
  pptSubprocessConvert : Except PyErr String
  pptConvertAuto : Except PyErr String
  fileExists : Bool
  groqApiKey : Option String
  llmInvoke : String → String → String → Except PyErr String

/-! ### Python string primitives -/

/-- Python truthiness of an optional string (`None` and `""` are falsy). -/
def optTruthy : Option String → Bool
  | none => false
  | some s => s != ""

/-- Python `str.lower()` (ASCII; all strings in this code are ASCII). -/
def pyLower (s : String) : String :=
  String.mk (s.data.map Char.toLower)

/-- Python `str.strip()`: drop leading and trailing whitespace. -/
def pyStrip (s : String) : String :=
  String.mk (((s.data.dropWhile Char.isWhitespace).reverse.dropWhile
    Char.isWhitespace).reverse)

/-- Python slicing `s[:n]` (by characters). -/
def pyTake (s : String) (n : Nat) : String :=
  String.mk (s.data.take n)

/-- Python substring test `pat in s`, via `splitOn`. -/
def containsSub (s pat : String) : Bool :=
  (s.splitOn pat).length > 1

/-- Python `str.rfind(c)`: index of the last occurrence, `-1` if absent. -/
def pyRfind (s : String) (c : Char) : Int :=
  match s.data.reverse.findIdx? (· == c) with
  | none => -1
  | some j => (s.data.length : Int) - 1 - j

/-- The extension component of `os.path.splitext(p)` (POSIX rules: the part
from the last dot of the basename, unless every character of the basename
before that dot is itself a dot). -/
def splitextExt (p : String) : String :=
  let sepIndex := pyRfind p '/'
  let dotIndex := pyRfind p '.'
  if sepIndex < dotIndex then
    let filenameStart := (sepIndex + 1).toNat
    let dn := dotIndex.toNat
    if ((p.data.drop filenameStart).take (dn - filenameStart)).any
        (fun c => c != '.') then
      String.mk (p.data.drop dn)
    else ""
  else ""

/-- `os.path.basename` (POSIX). -/
def pyBasename (p : String) : String :=
  String.mk ((p.data.reverse.takeWhile (· != '/')).reverse)

/-- Whitespace tokenisation, accumulator form (Python `str.split()` with no
argument: maximal non-whitespace runs, empties discarded). -/
def tokensAux : List Char → List Char → List (List Char)
  | [], acc => if acc = [] then [] else [acc.reverse]
  | c :: rest, acc =>
    if c.isWhitespace then
      if acc = [] then tokensAux rest [] else acc.reverse :: tokensAux rest []
    else tokensAux rest (c :: acc)

/-- Python `str.split()` on the character list. -/
def tokens (cs : List Char) : List (List Char) := tokensAux cs []

/-- Python `" ".join(ws)` on character lists. -/
def joinSp : List (List Char) → List Char
  | [] => []
  | [w] => w
  | w :: rest => w ++ (' ' :: joinSp rest)

/-- Python `str.replace(ab, r)` for a two-character pattern `ab`:
non-overlapping, left to right. -/
def replace2 (a b : Char) (r : List Char) : List Char → List Char
  | [] => []
  | [c] => [c]
  | c :: d :: rest =>
    if c = a ∧ d = b then r ++ replace2 a b r rest
    else c :: replace2 a b r (d :: rest)

/-! ### `DocumentProcessor` (`backend/processors.py`) -/

/-- Sum of the block text lengths (`sum(len(doc.page_content) for doc in
documents)`). -/
def contentLen (docs : List Document) : Nat :=
  (docs.map (fun d => d.page_content.length)).sum

/-- One `Document` per Excel sheet: `f"Sheet: {sheet_name}\n{df.to_string()}\n\n"`
(`_process_excel`, both engines build the same shape). -/
def sheetDocs (path : String) (sheets : List (String × String)) :
    List Document :=
  sheets.map (fun p =>
    { page_content := "Sheet: " ++ p.1 ++ "\n" ++ p.2 ++ "\n\n"
      metadata := { source := some path, file_type := some "excel",
                    sheet := some p.1 } })

/-- Successful Excel result state. -/
def excelSuccess (s : AgentState) (path : String)
    (sheets : List (String × String)) : AgentState :=
  { s with documents := some (sheetDocs path sheets)
           metadata := some { file_type := "excel"
                              document_count := (sheetDocs path sheets).length
                              content_length :=
                                contentLen (sheetDocs path sheets) } }

/-- `DocumentProcessor._process_excel`: pre-checks that `openpyxl` is
importable (raising `ImportError` otherwise, which the inner
`except ImportError` converts to a `ValueError` without touching xlrd);
reads with the `openpyxl` engine; on a non-`ImportError` failure retries
once with the `xlrd` engine; wraps any failure in
`ValueError("Error processing Excel file: ...")`. -/
def processExcel (env : Env) (s : AgentState) (path file_ext : String) :
    Except PyErr AgentState × List ExtCall :=
  if !env.openpyxlInstalled then
    (.error { isImport := false
              msg := "Error processing Excel file: Excel processing error: Missing required dependency 'openpyxl' for Excel processing. Please install with: pip install openpyxl" },
     [])
  else
    match env.readExcelOpenpyxl with
    | .ok sheets => (.ok (excelSuccess s path sheets), [.readExcel "openpyxl"])
    | .error e =>
      if e.isImport then
        (.error { isImport := false
                  msg := "Error processing Excel file: Excel processing error: "
                    ++ e.msg },
         [.readExcel "openpyxl"])
      else
        match env.readExcelXlrd with
        | .ok sheets =>
          (.ok (excelSuccess s path sheets),
           [.readExcel "openpyxl", .readExcel "xlrd"])
        | .error e2 =>
          (.error { isImport := false
                    msg := "Error processing Excel file: Failed to process Excel file with both openpyxl and xlrd engines: "
                      ++ e.msg ++ " and " ++ e2.msg },
           [.readExcel "openpyxl", .readExcel "xlrd"])

/-- `DocumentProcessor._process_docx`: `docx2txt.process`, one block. -/
def processDocx (env : Env) (s : AgentState) (path : String) :
    Except PyErr AgentState × List ExtCall :=
  match env.docxText with
  | .ok t =>
    (.ok { s with
             documents := some [{ page_content := t
                                  metadata := { source := some path
                                                file_type := some "word" } }]
             metadata := some { file_type := "word", document_count := 1
                                content_length := t.length } },
     [.docx2txt])
  | .error e =>
    (.error { isImport := false
              msg := "Error processing Word document: " ++ e.msg },
     [.docx2txt])

/-- `DocumentProcessor._process_doc`: `pypandoc.convert_file(path, 'plain')`,
one block. -/
def processDoc (env : Env) (s : AgentState) (path : String) :
    Except PyErr AgentState × List ExtCall :=
  match env.pandocConvert with
  | .ok t =>
    (.ok { s with
             documents := some [{ page_content := t
                                  metadata := { source := some path
                                                file_type := some "word" } }]
             metadata := some { file_type := "word", document_count := 1
                                content_length := t.length } },
     [.pandocConvertFile])
  | .error e =>
    (.error { isImport := false
              msg := "Error processing older Word document: " ++ e.msg },
     [.pandocConvertFile])

/-- Per-page text cleanup in `_process_pdf`:
`' '.join(text.split())` then `.replace(" .", ".").replace(" ,", ",")`. -/
def pdfClean (t : String) : String :=
  String.mk (replace2 ' ' ',' [','] (replace2 ' ' '.' ['.']
    (joinSp (tokens t.data))))

/-- The per-page loop of `_process_pdf`: pages whose extracted text is
non-empty after stripping become blocks, tagged with their 1-based page
number. -/
def pdfPageDocs (path : String) : Nat → List String → List Document
  | _, [] => []
  | i, t :: rest =>
    if pyStrip t ≠ "" then
      { page_content := t
        metadata := { source := some path, file_type := some "pdf",
                      page := some (i + 1) } } :: pdfPageDocs path (i + 1) rest
    else pdfPageDocs path (i + 1) rest

/-- The block-selection part of `_process_pdf` (lines 198-222): the
non-blank pages, or, when there are none, the `pypandoc.convert_file`
fallback (whose own exceptions are swallowed); paired with the external
calls made. -/
def pdfSelectDocs (env : Env) (path : String) (pages : List String) :
    List Document × List ExtCall :=
  if (pdfPageDocs path 0 pages).isEmpty then
    match env.pandocConvert with
    | .ok t =>
      (if pyStrip t ≠ "" then
        [{ page_content := t
           metadata := { source := some path, file_type := some "pdf",
                         extraction_method := some "pypandoc" } }]
       else [],
       [.pdfRead, .pandocConvertFile])
    | .error _ => ([], [.pdfRead, .pandocConvertFile])
  else (pdfPageDocs path 0 pages, [.pdfRead])

/-- The text cleanup loop of `_process_pdf` (lines 228-239). -/
def pdfCleanDocs (docs : List Document) : List Document :=
  docs.map (fun d => { d with page_content := pdfClean d.page_content })

/-- `DocumentProcessor._process_pdf`: extract per-page text, keep non-blank
pages; if none survive, fall back to `pypandoc.convert_file` (errors from
that fallback are swallowed); fail if still empty; otherwise clean every
block and record `page_count` alongside the usual metadata. -/
def processPdf (env : Env) (s : AgentState) (path : String) :
    Except PyErr AgentState × List ExtCall :=
  match env.pdfPages with
  | .error e =>
    (.error { isImport := false
              msg := "Error processing PDF file: " ++ e.msg },
     [.pdfRead])
  | .ok pages =>
    if (pdfSelectDocs env path pages).1.isEmpty then
      (.error { isImport := false
                msg := "Error processing PDF file: No text content found in PDF. The PDF might be scanned or protected." },
       (pdfSelectDocs env path pages).2)
    else
      (.ok { s with
               documents := some (pdfCleanDocs (pdfSelectDocs env path pages).1)
               metadata := some { file_type := "pdf"
                                  document_count :=
                                    (pdfCleanDocs (pdfSelectDocs env path pages).1).length
                                  content_length :=
                                    contentLen (pdfCleanDocs (pdfSelectDocs env path pages).1)
                                  page_count := some pages.length } },
       (pdfSelectDocs env path pages).2)

/-- `DocumentProcessor._process_text`: read the file as UTF-8, one block. -/
def processText (env : Env) (s : AgentState) (path : String) :
    Except PyErr AgentState × List ExtCall :=
  match env.readTextFile with
  | .ok t =>
    (.ok { s with
             documents := some [{ page_content := t
                                  metadata := { source := some path
                                                file_type := some "text" } }]
             metadata := some { file_type := "text", document_count := 1
                                content_length := t.length } },
     [.readText])
  | .error e =>
    (.error { isImport := false
              msg := "Error processing text file: " ++ e.msg },
     [.readText])

/-- The pandoc-path search chain of `_process_powerpoint`: environment
override, then `pypandoc.get_pandoc_path()`, then the OS-specific well-known
install locations, then `shutil.which`. -/
def resolvePandocPath (env : Env) : Option String :=
  let p1 : Option String :=
    if optTruthy env.pandocPathEnvVar then env.pandocPathEnvVar
    else
      match env.getPandocPath with
      | .ok p => some p
      | .error _ => env.osKnownPandocPath
  if optTruthy p1 then p1 else env.whichPandoc

/-- Successful PowerPoint result state (one block, tagged with the
extraction method that produced it). -/
def pptSuccess (s : AgentState) (path content method : String) : AgentState :=
  { s with
      documents := some [{ page_content := content
                           metadata := { source := some path
                                         file_type := some "powerpoint"
                                         extraction_method := some method } }]
      metadata := some { file_type := "powerpoint", document_count := 1
                         content_length := content.length } }

/-- The outer `except Exception` of `_process_powerpoint` (lines 467-478):
re-classifies the error message. -/
def pptOuterWrap (path msg : String) : PyErr :=
  if containsSub msg "No pandoc was found" ∨ containsSub msg "Pandoc is required" then
    { isImport := false
      msg := "Pandoc is required for PowerPoint processing but was not found on the system. Please install Pandoc from https://pandoc.org/installing.html" }
  else if containsSub (pyLower msg) "pptx" ∨ containsSub (pyLower msg) "powerpoint" then
    { isImport := false, msg := "Error processing PowerPoint file: " ++ msg }
  else
    { isImport := false
      msg := "Error processing PowerPoint file " ++ path ++ ": " ++ msg }

/-- The `RuntimeError` wrapper of the inner `except Exception`
(lines 460-465). -/
def pptRuntimeWrap (path msg : String) : String :=
  "Error processing PowerPoint file '" ++ pyBasename path ++ "': " ++ msg
    ++ ". Please ensure Pandoc is correctly installed and the file is not corrupted."

/-- Message of the `RuntimeError` raised when no pandoc binary is found. -/
def pandocNotFoundMsg : String :=
  "Pandoc not found. Please install Pandoc from https://pandoc.org/installing.html or run the add_pandoc_to_path.bat script (on Windows) to add it to your PATH."

/-- Message of the `ValueError` raised when all three conversion methods
produce empty content. -/
def pptFailMsg (path : String) : String :=
  "Failed to extract content from PowerPoint file: " ++ path
    ++ ". The file may be empty, corrupted, or not a valid PowerPoint file."

/-- Lines 442-458 of `_process_powerpoint`: after all three methods failed
to return, `content` holds the last successfully assigned conversion output
(passed in); empty or whitespace-only content raises. -/
def pptFinal (s : AgentState) (path content : String) :
    Except PyErr AgentState × List ExtCall :=
  if content = "" ∨ pyStrip content = "" then
    (.error (pptOuterWrap path (pptRuntimeWrap path (pptFailMsg path))),
     [.pptDirect, .pptSubprocess, .pptAuto])
  else
    (.ok (pptSuccess s path content "fallback"),
     [.pptDirect, .pptSubprocess, .pptAuto])

/-- Method 3 of `_process_powerpoint`: `pypandoc.convert_file` with format
auto-detection; its exceptions are swallowed, leaving `content` unchanged. -/
def pptMethod3 (env : Env) (s : AgentState) (path content : String) :
    Except PyErr AgentState × List ExtCall :=
  match env.pptConvertAuto with
  | .ok c =>
    if pyStrip c ≠ "" then
      (.ok (pptSuccess s path c "auto_detection"),
       [.pptDirect, .pptSubprocess, .pptAuto])
    else pptFinal s path c
  | .error _ => pptFinal s path content

/-- Method 2 of `_process_powerpoint`: invoke the pandoc binary as a
subprocess writing to a temporary file and read it back (collapsed into one
oracle); exceptions swallowed. -/
def pptMethod2 (env : Env) (s : AgentState) (path content : String) :
    Except PyErr AgentState × List ExtCall :=
  match env.pptSubprocessConvert with
  | .ok c =>
    if pyStrip c ≠ "" then
      (.ok (pptSuccess s path c "subprocess_conversion"),
       [.pptDirect, .pptSubprocess])
    else pptMethod3 env s path c
  | .error _ => pptMethod3 env s path content

/-- Method 1 of `_process_powerpoint`: direct `pypandoc.convert_file` with
an explicit `pptx`/`ppt` format argument; exceptions swallowed. -/
def pptMethods (env : Env) (s : AgentState) (path : String) :
    Except PyErr AgentState × List ExtCall :=
  match env.pptConvertExplicit with
  | .ok c =>
    if pyStrip c ≠ "" then
      (.ok (pptSuccess s path c "direct_conversion"), [.pptDirect])
    else pptMethod2 env s path c
  | .error _ => pptMethod2 env s path ""

/-- `DocumentProcessor._process_powerpoint`: existence and size checks, the
pandoc search chain, then the three conversion methods. -/
def processPowerpoint (env : Env) (s : AgentState) (path file_ext : String) :
    Except PyErr AgentState × List ExtCall :=
  if !env.pptFileExists then
    (.error (pptOuterWrap path ("PowerPoint file not found: " ++ path)), [])
  else if env.pptFileSize == 0 then
    (.error (pptOuterWrap path ("PowerPoint file is empty: " ++ path)), [])
  else if !(optTruthy (resolvePandocPath env)) then
    (.error (pptOuterWrap path pandocNotFoundMsg), [])
  else pptMethods env s path

/-- The pre-processed-content short circuit of `process_document`
(lines 36-49). -/
def preProcessedState (s : AgentState) (c : String) : AgentState :=
  { s with
      documents := some [{ page_content := c
                           metadata := { source := some "pre_processed"
                                         file_type := some "text" } }]
      metadata := some { file_type := "text", document_count := 1
                         content_length := c.length } }

/-- Body of `DocumentProcessor.process_document` before its
`except Exception` handler: the pre-processed short circuit, the extension
dispatch, or the raised exception. -/
def processDocumentBody (env : Env) (s : AgentState) :
    Except PyErr AgentState × List ExtCall :=
  if optTruthy s.pre_processed_content then
    (.ok (preProcessedState s (s.pre_processed_content.getD "")), [])
  else if !(optTruthy s.file_path) then
    (.error { isImport := false
              msg := "No file path or pre-processed content provided" },
     [])
  else
    let path := s.file_path.getD ""
    let ext := pyLower (splitextExt path)
    if ext = ".xlsx" ∨ ext = ".xls" then processExcel env s path ext
    else if ext = ".docx" then processDocx env s path
    else if ext = ".doc" then processDoc env s path
    else if ext = ".pdf" then processPdf env s path
    else if ext = ".txt" then processText env s path
    else if ext = ".ppt" ∨ ext = ".pptx" then processPowerpoint env s path ext
    else
      (.error { isImport := false
                msg := "Unsupported file type: " ++ ext },
       [])

/-- `DocumentProcessor.process_document`: the body with every exception
caught and converted into the state's `error` field (lines 77-81). -/
def processDocument (env : Env) (s : AgentState) : AgentState × List ExtCall :=
  match processDocumentBody env s with
  | (.ok s', tr) => (s', tr)
  | (.error e, tr) =>
    ({ s with error := some ("Error processing document: " ++ e.msg) }, tr)

/-! ### `answer_question` and the agent (`backend/agent.py`) -/

/-- Fixed answer when no documents are in the state (lines 59-63). -/
def noDocsMsg : String :=
  "I don't have any document content to analyze. Please upload a document first."

/-- Fixed answer when the concatenated content is empty or whitespace-only
(lines 76-80). -/
def emptyDocMsg : String :=
  "The document appears to be empty or contains no extractable text content. Please try uploading a different document format or check if the document contains actual text content that can be extracted."

/-- Fixed answer when `GROQ_API_KEY` is unset or empty (lines 94-99). -/
def apiKeyMsg : String :=
  "API key not configured. Please set the GROQ_API_KEY environment variable."

/-- The raw-content trigger phrases (lines 102-107). -/
def triggerPhrases : List String :=
  ["simply return the raw content of this document without any analysis or summary.",
   "raw content",
   "show content",
   "extract content"]

/-- Concatenation of all block texts, each followed by a blank line
(lines 70-71). -/
def concatContent (docs : List Document) : String :=
  docs.foldl (fun acc d => acc ++ d.page_content ++ "\n\n") ""

/-- The file-type fold of lines 70-74: starting from `"unknown"`, each
block's `file_type` metadata replaces the running value while that value is
empty or `"unknown"`. -/
def foldFileType (docs : List Document) : String :=
  docs.foldl
    (fun ft d =>
      if ft = "" ∨ ft = "unknown" then d.metadata.file_type.getD ft else ft)
    "unknown"

/-- The human-readable document-type label (lines 114-126). -/
def fileTypeDesc (ft : String) : String :=
  if containsSub ft "excel" then "Excel spreadsheet"
  else if containsSub ft "word" then "Word document"
  else if containsSub ft "pdf" then "PDF document"
  else if containsSub ft "text" then "text file"
  else if containsSub ft "powerpoint" then "PowerPoint presentation"
  else "document"

/-- The system prompt template (lines 129-141), parameterised by the
document-type label. -/
def systemPrompt (d : String) : String :=
  "You are a document analysis assistant specialized in answering questions about "
    ++ d ++ "s.\n        Your task is to analyze the provided document content and answer questions about it EXACTLY as it appears in the document.\n        Follow these rules strictly:\n        1. ONLY use information that is EXPLICITLY contained in the document content\n        2. If the answer cannot be found in the document, politely explain that you don't see that specific information in the current document, then try to be helpful by suggesting related information from the document that might be relevant or suggesting how the user might rephrase their question\n        3. Be precise and specific in your answers, quoting directly from the text when possible\n        4. For numerical data, provide exact values as they appear in the document\n        5. If a question asks for information about a person or topic that's in the document, list all available details from the document\n        6. Do NOT make assumptions, inferences, or provide information not present in the document\n        7. For questions that are related to the document but where the exact answer isn't directly stated, explain what relevant information IS available in the document\n        8. NEVER respond with \"I cannot find any information about X in the document\" and stop there - always try to provide the most relevant information that IS available\n        9. If the document contains complex data (such as tables or numbers), make sure to convey this information clearly and accurately\n        10. Assume the user has not seen the document content, so provide COMPLETE information"

/-- The `except Exception` handler of `answer_question` (lines 163-199):
pattern-matches on the (lowercased) error text to pick a diagnostic
answer. -/
def llmErrorAnswer (msg : String) : String :=
  let m := pyLower msg
  if containsSub m "openpyxl" then
    "I encountered an error while processing your Excel file. The server is missing the 'openpyxl' package which is required for Excel support. Please contact the administrator to install this package by running: pip install openpyxl"
  else if containsSub m "xlrd" then
    "I encountered an error while processing your Excel file. The server is missing packages required for Excel support. Please contact the administrator to install the necessary packages by running: pip install openpyxl xlrd"
  else if containsSub m "excel" then
    "I encountered an error while processing your Excel file. Please make sure your Excel file is not password-protected or corrupted. The specific error was: " ++ msg
  else if containsSub m "pandoc" then
    "I encountered an error while processing your PowerPoint file. The server is missing Pandoc which is required for PowerPoint support. Pandoc is not a Python package but a separate program that needs to be installed on the system. Please ask the administrator to install Pandoc from https://pandoc.org/installing.html"
  else if containsSub m "powerpoint" then
    "I encountered an error while processing your PowerPoint file. Please make sure your PowerPoint file is not password-protected or corrupted. The specific error was: " ++ msg
  else
    "I apologize, but I encountered an error while processing your question: " ++ msg

/-- `answer_question` (lines 46-199): empty-documents check, content
concatenation, empty-content check, API-key check, raw-content trigger
short circuit, then the truncated LLM call with pattern-matched error
messages.  The second component records the external calls made (the LLM
call with the context and question it was sent). -/
def answerQuestion (env : Env) (s : AgentState) : AgentState × List ExtCall :=
  let docs := s.documents.getD []
  if docs.isEmpty then
    ({ s with answer := some noDocsMsg }, [])
  else
    let content := concatContent docs
    let fileType := foldFileType docs
    if pyStrip content = "" then
      ({ s with answer := some emptyDocMsg }, [])
    else if !(optTruthy env.groqApiKey) then
      ({ s with answer := some apiKeyMsg }, [])
    else if triggerPhrases.contains (pyStrip (pyLower s.question)) then
      let raw := if content.length > 8000 then pyTake content 8000 else content
      ({ s with answer := some raw }, [])
    else
      let sys := systemPrompt (fileTypeDesc fileType)
      let ctx := if content.length > 25000 then pyTake content 25000 else content
      match env.llmInvoke sys ctx s.question with
      | .ok resp => ({ s with answer := some resp }, [.llm ctx s.question])
      | .error e =>
        ({ s with answer := some (llmErrorAnswer e.msg) }, [.llm ctx s.question])

/-- The compiled two-node graph of `build_qa_graph`:
`process_document` then `answer_question` on the threaded state, with the
external-call traces concatenated. -/
def pipelineState (env : Env) (s : AgentState) : AgentState × List ExtCall :=
  let r1 := processDocument env s
  let r2 := answerQuestion env r1.1
  (r2.1, r1.2 ++ r2.2)

/-- `DocumentQAAgent.run`'s answer when neither input is supplied. -/
def noDocProvidedMsg : String :=
  "No document provided. Please provide either a file path or pre-processed content."

/-- `DocumentQAAgent.run`'s answer for pre-processed content shorter than
10 characters. -/
def tooShortMsg : String :=
  "The provided document content is too short or empty. Please upload a valid document."

/-- `DocumentQAAgent.run`'s answer when the graph produced no (or an empty)
answer. -/
def noAnswerMsg : String :=
  "No answer could be generated. Please try rephrasing your question or upload a different document."

/-- Lines 248-263 of `DocumentQAAgent.run`: invoke the graph, report the
state's `error` if present, otherwise the answer (or the fixed no-answer
message when it is missing or empty). -/
def runGraph (env : Env) (st : AgentState) : String × List ExtCall :=
  let r := pipelineState env st
  match r.1.error with
  | some e => ("Error processing document: " ++ e, r.2)
  | none =>
    match r.1.answer with
    | some a => if a = "" then (noAnswerMsg, r.2) else (a, r.2)
    | none => (noAnswerMsg, r.2)

/-- `DocumentQAAgent.run(question, file_path, pre_processed_content)`
(lines 212-269): input validation (Python truthiness: empty strings count
as absent), the 10-character minimum for pre-processed content, the
file-existence check, then the graph invocation. -/
def runAgent (env : Env) (question : String) (filePath : Option String)
    (pre : Option String) : String × List ExtCall :=
  if !(optTruthy filePath) && !(optTruthy pre) then
    (noDocProvidedMsg, [])
  else if optTruthy pre then
    if (pre.getD "").length < 10 then
      (tooShortMsg, [])
    else
      runGraph env { question := question, pre_processed_content := pre }
  else
    if !env.fileExists then
      ("File not found: " ++ filePath.getD "" ++ ". Please upload a valid document.",
       [])
    else
      runGraph env { question := question, file_path := filePath }

/-! ### Observation helpers -/

/-- Did the `Except` computation succeed (no exception raised)? -/
def exceptIsOk {α : Type} : Except PyErr α → Bool
  | .ok _ => true
  | .error _ => false

/-- The success state of an extractor result (default state on error). -/
def okStateD : Except PyErr AgentState → AgentState
  | .ok st => st
  | .error _ => default

/-- `str(e)` of the raised exception (empty on success). -/
def errMsgOf {α : Type} : Except PyErr α → String
  | .error e => e.msg
  | .ok _ => ""

/-- The extracted blocks of a state (`state.get("documents", [])`). -/
def blocksOf (st : AgentState) : List Document :=
  st.documents.getD []

/-- `metadata.content_length == sum(len(block.text) for block in blocks)`. -/
def lenOKb (st : AgentState) : Bool :=
  match st.metadata with
  | some m => m.content_length == contentLen (blocksOf st)
  | none => false

/-- The state has at least one block with non-empty text. -/
def hasNonemptyBlock (st : AgentState) : Bool :=
  (blocksOf st).any (fun d => d.page_content != "")

/-- Every block of the state has non-empty text. -/
def allBlocksNonempty (st : AgentState) : Bool :=
  (blocksOf st).all (fun d => d.page_content != "")

/-- Number of extracted blocks. -/
def blockCount (st : AgentState) : Nat :=
  (blocksOf st).length

/-- The extensions handled by the dispatcher (lines 62-73 of
`processors.py`). -/
def supportedExts : List String :=
  [".xlsx", ".xls", ".docx", ".doc", ".pdf", ".txt", ".ppt", ".pptx"]

/-! ### Concrete environments and states for witnesses and
counterexamples -/

/-- A benign environment: every library call succeeds. -/
def env0 : Env := {
  openpyxlInstalled := true
  readExcelOpenpyxl := .ok [("Sheet1", "col data")]
  readExcelXlrd := .ok [("Sheet1", "col data")]
  docxText := .ok "hello docx"
  pandocConvert := .ok "hello doc"
  pdfPages := .ok ["page one text"]
  readTextFile := .ok "hello text"
  pptFileExists := true
  pptFileSize := 5
  pandocPathEnvVar := none
  getPandocPath := .ok "/usr/bin/pandoc"
  osKnownPandocPath := none
  whichPandoc := none
  pptConvertExplicit := .ok "slide text"
  pptSubprocessConvert := .ok "slide text"
  pptConvertAuto := .ok "slide text"
  fileExists := true
  groqApiKey := some "key"
  llmInvoke := fun _ _ _ => .ok "llm answer" }

/-- A state pointing at a file with an unsupported extension. -/
def stBad : AgentState := { question := "q", file_path := some "a.xyz" }

/-- A plain questioning state with no inputs set. -/
def stQ : AgentState := { question := "q" }

/-- The benign environment with the API key removed. -/
def envNoKey : Env := { env0 with groqApiKey := none }

/-- A state asking a raw-content trigger question over one block. -/
def stTrig : AgentState :=
  { question := "raw content", documents := some [{ page_content := "hello" }] }

/-- A state whose only block is whitespace. -/
def stWs : AgentState :=
  { question := "q", documents := some [{ page_content := " \n " }] }

/-- A state that reaches the LLM call. -/
def stLLM : AgentState :=
  { question := "what", documents := some [{ page_content := "hi" }] }

/-- Environment where the openpyxl read raises an `ImportError` (as pandas
does when the installed openpyxl version is too old). -/
def envC3c : Env :=
  { env0 with
      readExcelOpenpyxl := .error ⟨true, "Pandas requires a newer version of openpyxl"⟩ }

/-- Environment where both engine reads raise ordinary exceptions. -/
def envC3w : Env :=
  { env0 with
      readExcelOpenpyxl := .error ⟨false, "boom"⟩
      readExcelXlrd := .error ⟨false, "bad"⟩ }

/-- Environment: a two-page PDF whose pages are whitespace-only, with
the pypandoc fallback failing too. -/
def envC6 : Env :=
  { env0 with
      pdfPages := .ok ["  ", ""]
      pandocConvert := .error ⟨false, "pandoc failed"⟩ }

/-- Environment: an empty text file. -/
def envTxtEmpty : Env := { env0 with readTextFile := .ok "" }

/-! ### String-primitive lemmas -/

theorem pyTake_length (s : String) (n : Nat) :
    (pyTake s n).length = min n s.length := by
  cases s with
  | mk l => simpa [pyTake] using List.length_take n l

theorem string_mk_ne_empty (l : List Char) (h : l ≠ []) : String.mk l ≠ "" := by
  intro he
  exact h (congrArg String.data he)

theorem string_append_ne_empty_left (s t : String) (h : s ≠ "") :
    s ++ t ≠ "" := by
  intro he
  apply h
  have hd : s.data ++ t.data = [] := by
    have hdata : (s ++ t).data = ("" : String).data := congrArg String.data he
    cases s; cases t
    simpa using hdata
  have hs : s.data = [] := (List.append_eq_nil.mp hd).1
  cases s
  simp_all

theorem pyStrip_empty_of_eq : pyStrip "" = "" := rfl

theorem ne_empty_of_pyStrip_ne (c : String) (h : pyStrip c ≠ "") : c ≠ "" := by
  intro he
  subst he
  exact h rfl

/-! ### Tokenisation lemmas (for the PDF text cleanup) -/

theorem tokensAux_eq_nil (cs : List Char) :
    ∀ acc, tokensAux cs acc = [] → (∀ c ∈ cs, c.isWhitespace) ∧ acc = [] := by
  induction cs with
  | nil =>
    intro acc h
    unfold tokensAux at h
    split at h
    · exact ⟨by simp, by assumption⟩
    · simp at h
  | cons c rest ih =>
    intro acc h
    unfold tokensAux at h
    split at h
    · split at h
      · rcases ih [] h with ⟨hall, -⟩
        refine ⟨?_, by assumption⟩
        intro x hx
        rcases List.mem_cons.mp hx with rfl | hx
        · assumption
        · exact hall x hx
      · simp at h
    · rcases ih (c :: acc) h with ⟨-, habs⟩
      simp at habs

theorem tokensAux_mem_ne_nil (cs : List Char) :
    ∀ acc w, w ∈ tokensAux cs acc → w ≠ [] := by
  induction cs with
  | nil =>
    intro acc w hw
    unfold tokensAux at hw
    split at hw
    · simp at hw
    · rcases List.mem_singleton.mp hw with rfl
      simp_all
  | cons c rest ih =>
    intro acc w hw
    unfold tokensAux at hw
    split at hw
    · split at hw
      · exact ih [] w hw
      · rcases List.mem_cons.mp hw with rfl | hw
        · simp_all
        · exact ih [] w hw
    · exact ih (c :: acc) w hw

theorem tokens_mem_ne_nil (cs : List Char) (w : List Char)
    (hw : w ∈ tokens cs) : w ≠ [] :=
  tokensAux_mem_ne_nil cs [] w hw

theorem tokens_ne_nil_of_not_all_ws (cs : List Char)
    (h : ¬ ∀ c ∈ cs, c.isWhitespace) : tokens cs ≠ [] := by
  intro he
  exact h (tokensAux_eq_nil cs [] he).1

theorem dropWhile_eq_nil_of_all (p : Char → Bool) (l : List Char)
    (h : ∀ c ∈ l, p c) : l.dropWhile p = [] :=
  List.dropWhile_eq_nil_iff.mpr h

theorem pyStrip_eq_empty_of_all_ws (s : String)
    (h : ∀ c ∈ s.data, c.isWhitespace) : pyStrip s = "" := by
  unfold pyStrip
  rw [dropWhile_eq_nil_of_all _ _ h]
  rfl

theorem tokens_ne_nil_of_pyStrip_ne (s : String) (h : pyStrip s ≠ "") :
    tokens s.data ≠ [] := by
  apply tokens_ne_nil_of_not_all_ws
  intro hall
  exact h (pyStrip_eq_empty_of_all_ws s hall)

theorem joinSp_ne_nil (ws : List (List Char)) (h : ws ≠ [])
    (hall : ∀ w ∈ ws, w ≠ []) : joinSp ws ≠ [] := by
  match ws with
  | [] => exact absurd rfl h
  | [w] =>
    have : w ≠ [] := hall w (by simp)
    simpa [joinSp] using this
  | w :: v :: rest =>
    show w ++ (' ' :: joinSp (v :: rest)) ≠ []
    intro he
    have := (List.append_eq_nil.mp he).2
    simp at this

theorem replace2_ne_nil (a b : Char) (r : List Char) (hr : r ≠ []) :
    ∀ cs, cs ≠ [] → replace2 a b r cs ≠ [] := by
  intro cs
  match cs with
  | [] => intro h; exact absurd rfl h
  | [c] => intro _; simp [replace2]
  | c :: d :: rest =>
    intro _
    unfold replace2
    split
    · intro he
      exact hr (List.append_eq_nil.mp he).1
    · simp

theorem pdfClean_ne_empty (t : String) (h : pyStrip t ≠ "") :
    pdfClean t ≠ "" := by
  apply string_mk_ne_empty
  apply replace2_ne_nil _ _ _ (by simp)
  apply replace2_ne_nil _ _ _ (by simp)
  exact joinSp_ne_nil _ (tokens_ne_nil_of_pyStrip_ne t h)
    (fun w hw => tokens_mem_ne_nil t.data w hw)

/-! ### Structural lemmas about the extractors -/

theorem sheetDocs_all_nonempty (path : String)
    (sheets : List (String × String)) :
    ∀ d ∈ sheetDocs path sheets, d.page_content ≠ "" := by
  intro d hd
  obtain ⟨p, -, rfl⟩ := List.mem_map.mp hd
  exact string_append_ne_empty_left _ _ (string_append_ne_empty_left _ _
    (string_append_ne_empty_left _ _ (string_append_ne_empty_left _ _
      (by decide))))

theorem excelSuccess_facts (s : AgentState) (path : String)
    (sheets : List (String × String)) :
    lenOKb (excelSuccess s path sheets) = true ∧
      allBlocksNonempty (excelSuccess s path sheets) = true ∧
      (excelSuccess s path sheets).error = s.error := by
  refine ⟨by simp [lenOKb, excelSuccess, blocksOf], ?_, rfl⟩
  show (sheetDocs path sheets).all (fun d => d.page_content != "") = true
  rw [List.all_eq_true]
  intro d hd
  exact bne_iff_ne.mpr (sheetDocs_all_nonempty path sheets d hd)

theorem processExcel_ok_facts (env : Env) (s : AgentState) (path ext : String)
    (s' : AgentState) (h : (processExcel env s path ext).1 = .ok s') :
    lenOKb s' = true ∧ allBlocksNonempty s' = true ∧ s'.error = s.error := by
  unfold processExcel at h
  split at h
  · simp at h
  · split at h
    · simp only [Except.ok.injEq] at h
      subst h
      exact excelSuccess_facts s path _
    · split at h
      · simp at h
      · split at h
        · simp only [Except.ok.injEq] at h
          subst h
          exact excelSuccess_facts s path _
        · simp at h

theorem processDocx_ok_facts (env : Env) (s : AgentState) (path : String)
    (s' : AgentState) (h : (processDocx env s path).1 = .ok s') :
    lenOKb s' = true ∧ blockCount s' = 1 ∧ s'.error = s.error := by
  unfold processDocx at h
  split at h
  · simp only [Except.ok.injEq] at h
    subst h
    exact ⟨by simp [lenOKb, blocksOf, contentLen], rfl, rfl⟩
  · simp at h

theorem processDoc_ok_facts (env : Env) (s : AgentState) (path : String)
    (s' : AgentState) (h : (processDoc env s path).1 = .ok s') :
    lenOKb s' = true ∧ blockCount s' = 1 ∧ s'.error = s.error := by
  unfold processDoc at h
  split at h
  · simp only [Except.ok.injEq] at h
    subst h
    exact ⟨by simp [lenOKb, blocksOf, contentLen], rfl, rfl⟩
  · simp at h

theorem processText_ok_facts (env : Env) (s : AgentState) (path : String)
    (s' : AgentState) (h : (processText env s path).1 = .ok s') :
    lenOKb s' = true ∧ blockCount s' = 1 ∧ s'.error = s.error := by
  unfold processText at h
  split at h
  · simp only [Except.ok.injEq] at h
    subst h
    exact ⟨by simp [lenOKb, blocksOf, contentLen], rfl, rfl⟩
  · simp at h

theorem pdfPageDocs_mem_strip (path : String) :
    ∀ i pages d, d ∈ pdfPageDocs path i pages → pyStrip d.page_content ≠ "" := by
  intro i pages
  induction pages generalizing i with
  | nil => intro d hd; simp [pdfPageDocs] at hd
  | cons t rest ih =>
    intro d hd
    unfold pdfPageDocs at hd
    split at hd
    · rcases List.mem_cons.mp hd with rfl | hd
      · assumption
      · exact ih (i + 1) d hd
    · exact ih (i + 1) d hd

theorem pdfPageDocs_eq_nil (path : String) :
    ∀ i pages, (∀ p ∈ pages, pyStrip p = "") → pdfPageDocs path i pages = [] := by
  intro i pages
  induction pages generalizing i with
  | nil => intro _; rfl
  | cons t rest ih =>
    intro hws
    unfold pdfPageDocs
    split
    · exact absurd (hws t (by simp)) (by assumption)
    · exact ih (i + 1) (fun p hp => hws p (List.mem_cons_of_mem t hp))

theorem pdfSelectDocs_mem_strip (env : Env) (path : String)
    (pages : List String) :
    ∀ d ∈ (pdfSelectDocs env path pages).1, pyStrip d.page_content ≠ "" := by
  unfold pdfSelectDocs
  split
  · split
    · split
      · intro d hd
        rcases List.mem_singleton.mp hd with rfl
        assumption
      · intro d hd; simp at hd
    · intro d hd; simp at hd
  · exact fun d hd => pdfPageDocs_mem_strip path 0 pages d hd

theorem processPdf_ok_facts (env : Env) (s : AgentState) (path : String)
    (s' : AgentState) (h : (processPdf env s path).1 = .ok s') :
    lenOKb s' = true ∧ hasNonemptyBlock s' = true ∧
      allBlocksNonempty s' = true ∧ s'.error = s.error := by
  unfold processPdf at h
  split at h
  · simp at h
  · next pages heq =>
    split at h
    · simp at h
    · next hne =>
      simp only [Except.ok.injEq] at h
      subst h
      have hmem := pdfSelectDocs_mem_strip env path pages
      have hnonnil : (pdfSelectDocs env path pages).1 ≠ [] := by
        intro hnil
        rw [hnil] at hne
        simp at hne
      refine ⟨by simp [lenOKb, blocksOf], ?_, ?_, rfl⟩
      · show (pdfCleanDocs (pdfSelectDocs env path pages).1).any
          (fun d => d.page_content != "") = true
        rw [List.any_eq_true]
        obtain ⟨d, hd⟩ := List.exists_mem_of_ne_nil _ hnonnil
        refine ⟨_, List.mem_map_of_mem _ hd, ?_⟩
        exact bne_iff_ne.mpr (pdfClean_ne_empty _ (hmem d hd))
      · show (pdfCleanDocs (pdfSelectDocs env path pages).1).all
          (fun d => d.page_content != "") = true
        rw [List.all_eq_true]
        intro d hd
        obtain ⟨d0, hd0, rfl⟩ := List.mem_map.mp hd
        exact bne_iff_ne.mpr (pdfClean_ne_empty _ (hmem d0 hd0))

theorem pptSuccess_facts (s : AgentState) (path c m : String)
    (hc : pyStrip c ≠ "") :
    lenOKb (pptSuccess s path c m) = true ∧
      blockCount (pptSuccess s path c m) = 1 ∧
      hasNonemptyBlock (pptSuccess s path c m) = true ∧
      (pptSuccess s path c m).error = s.error := by
  refine ⟨by simp [lenOKb, pptSuccess, blocksOf, contentLen], rfl, ?_, rfl⟩
  simp only [hasNonemptyBlock, pptSuccess, blocksOf, Option.getD_some,
    List.any_cons, List.any_nil, Bool.or_false]
  simp only [bne_iff_ne, ne_eq]
  exact ne_empty_of_pyStrip_ne c hc

theorem pptFinal_ok (s : AgentState) (path content : String)
    (s' : AgentState) (h : (pptFinal s path content).1 = .ok s') :
    ∃ c m, pyStrip c ≠ "" ∧ s' = pptSuccess s path c m := by
  unfold pptFinal at h
  split at h
  · simp at h
  · next hcond =>
    simp only [Except.ok.injEq] at h
    push_neg at hcond
    exact ⟨content, "fallback", hcond.2, h.symm⟩

theorem pptMethod3_ok (env : Env) (s : AgentState) (path content : String)
    (s' : AgentState) (h : (pptMethod3 env s path content).1 = .ok s') :
    ∃ c m, pyStrip c ≠ "" ∧ s' = pptSuccess s path c m := by
  unfold pptMethod3 at h
  split at h
  · split at h
    · simp only [Except.ok.injEq] at h
      exact ⟨_, "auto_detection", by assumption, h.symm⟩
    · exact pptFinal_ok s path _ s' h
  · exact pptFinal_ok s path _ s' h

theorem pptMethod2_ok (env : Env) (s : AgentState) (path content : String)
    (s' : AgentState) (h : (pptMethod2 env s path content).1 = .ok s') :
    ∃ c m, pyStrip c ≠ "" ∧ s' = pptSuccess s path c m := by
  unfold pptMethod2 at h
  split at h
  · split at h
    · simp only [Except.ok.injEq] at h
      exact ⟨_, "subprocess_conversion", by assumption, h.symm⟩
    · exact pptMethod3_ok env s path _ s' h
  · exact pptMethod3_ok env s path _ s' h

theorem pptMethods_ok (env : Env) (s : AgentState) (path : String)
    (s' : AgentState) (h : (pptMethods env s path).1 = .ok s') :
    ∃ c m, pyStrip c ≠ "" ∧ s' = pptSuccess s path c m := by
  unfold pptMethods at h
  split at h
  · split at h
    · simp only [Except.ok.injEq] at h
      exact ⟨_, "direct_conversion", by assumption, h.symm⟩
    · exact pptMethod2_ok env s path _ s' h
  · exact pptMethod2_ok env s path _ s' h

theorem processPowerpoint_ok_facts (env : Env) (s : AgentState)
    (path ext : String) (s' : AgentState)
    (h : (processPowerpoint env s path ext).1 = .ok s') :
    lenOKb s' = true ∧ blockCount s' = 1 ∧ hasNonemptyBlock s' = true ∧
      s'.error = s.error := by
  unfold processPowerpoint at h
  split at h
  · simp at h
  · split at h
    · simp at h
    · split at h
      · simp at h
      · obtain ⟨c, m, hc, rfl⟩ := pptMethods_ok env s path s' h
        exact pptSuccess_facts s path c m hc

/-! ### Structural lemmas about `answer_question` and the pipeline -/

theorem answerQuestion_answer_isSome (env : Env) (s : AgentState) :
    ((answerQuestion env s).1.answer).isSome = true := by
  unfold answerQuestion
  dsimp only
  split
  · rfl
  · split
    · rfl
    · split
      · rfl
      · split
        · rfl
        · split <;> rfl

theorem answerQuestion_error_eq (env : Env) (s : AgentState) :
    (answerQuestion env s).1.error = s.error := by
  unfold answerQuestion
  dsimp only
  split
  · rfl
  · split
    · rfl
    · split
      · rfl
      · split
        · rfl
        · split <;> rfl

theorem processDocumentBody_ok_error (env : Env) (s : AgentState)
    (s' : AgentState) (h : (processDocumentBody env s).1 = .ok s') :
    s'.error = s.error := by
  unfold processDocumentBody at h
  split at h
  · simp only [Except.ok.injEq] at h
    subst h
    rfl
  · split at h
    · simp at h
    · dsimp only at h
      split at h
      · exact (processExcel_ok_facts env s _ _ s' h).2.2
      · split at h
        · exact (processDocx_ok_facts env s _ s' h).2.2
        · split at h
          · exact (processDoc_ok_facts env s _ s' h).2.2
          · split at h
            · exact (processPdf_ok_facts env s _ s' h).2.2.2
            · split at h
              · exact (processText_ok_facts env s _ s' h).2.2
              · split at h
                · exact (processPowerpoint_ok_facts env s _ _ s' h).2.2.2
                · simp at h

/-! ### Claim C1 -/

/-- C1 (counterexample): the claim "at most one of `answer`/`error` is
populated at pipeline completion" is false.  Running the pipeline on a
fresh state whose file has an unsupported extension sets `error` in the
extraction stage, after which `answer_question` — which never inspects
`error` — also sets `answer` (to the no-documents fallback message), so
both fields are populated at completion. -/
theorem c1_counterexample :
    ((pipelineState env0 stBad).1.answer).isSome = true ∧
    ((pipelineState env0 stBad).1.error).isSome = true := by
  exact ⟨rfl, rfl⟩

/-- C1 (amended): for every pipeline run started from a fresh state (no
`answer`, no `error`), at completion `answer` is always populated, and
`error` is additionally populated exactly when the extraction stage raised
— so at most one of the two is populated only in the success case, and
both are populated on extraction failure. -/
theorem c1_amended (env : Env) (s : AgentState)
    (hans : s.answer = none) (herr : s.error = none) :
    ((pipelineState env s).1.answer).isSome = true ∧
    (((pipelineState env s).1.error).isSome = true ↔
      exceptIsOk (processDocumentBody env s).1 = false) := by
  constructor
  · unfold pipelineState
    dsimp only
    exact answerQuestion_answer_isSome env _
  · unfold pipelineState
    dsimp only
    rw [answerQuestion_error_eq]
    unfold processDocument
    rcases hb : processDocumentBody env s with ⟨r, tr⟩
    rcases r with e | s''
    · simp [exceptIsOk]
    · have hpres : s''.error = s.error :=
        processDocumentBody_ok_error env s s'' (by rw [hb])
      simp [exceptIsOk, hpres, herr]

/-- C1 (witness): the amended statement at a concrete failing run. -/
theorem c1_witness :
    ((pipelineState env0 stBad).1.answer).isSome = true ∧
    (((pipelineState env0 stBad).1.error).isSome = true ↔
      exceptIsOk (processDocumentBody env0 stBad).1 = false) :=
  c1_amended env0 stBad rfl rfl

/-! ### Claim C4 -/

/-- C4 (confirmed): `process_document` never raises — in this embedding it
is a total function returning a plain state — and whenever its body (the
dispatch or a delegated extractor) raises an exception, the exception is
caught and converted into the state's `error` field while every
pre-existing field of the input state is returned unchanged. -/
theorem c4_catches_and_preserves (env : Env) (s : AgentState)
    (h : exceptIsOk (processDocumentBody env s).1 = false) :
    (processDocument env s).1.question = s.question ∧
    (processDocument env s).1.file_path = s.file_path ∧
    (processDocument env s).1.pre_processed_content = s.pre_processed_content ∧
    (processDocument env s).1.documents = s.documents ∧
    (processDocument env s).1.metadata = s.metadata ∧
    (processDocument env s).1.answer = s.answer ∧
    (processDocument env s).1.error =
      some ("Error processing document: " ++
        errMsgOf (processDocumentBody env s).1) := by
  unfold processDocument
  rcases hb : processDocumentBody env s with ⟨r, tr⟩
  rw [hb] at h
  rcases r with e | s''
  · simp [errMsgOf]
  · simp [exceptIsOk] at h

/-- C4 (witness): the catch-and-convert behaviour at a concrete failing
input (unsupported extension). -/
theorem c4_witness :
    (processDocument env0 stBad).1.error =
      some ("Error processing document: " ++
        errMsgOf (processDocumentBody env0 stBad).1) :=
  (c4_catches_and_preserves env0 stBad (by decide)).2.2.2.2.2.2

/-! ### Claim C5 -/

/-- C5 (confirmed): when the state carries a (non-empty) file path whose
lowercased extension is not one of the eight supported ones, and no
pre-processed content short-circuits the dispatch, `process_document`
records the unsupported-format error in the state's `error` field and
performs no external call at all — no format extractor runs. -/
theorem c5_unsupported_extension (env : Env) (s : AgentState) (path : String)
    (hpre : optTruthy s.pre_processed_content = false)
    (hfp : s.file_path = some path) (hne : path ≠ "")
    (hext : pyLower (splitextExt path) ∉ supportedExts) :
    (processDocument env s).1.error =
      some ("Error processing document: " ++
        ("Unsupported file type: " ++ pyLower (splitextExt path))) ∧
    (processDocument env s).2 = [] := by
  simp only [supportedExts, List.mem_cons, List.mem_singleton, not_or] at hext
  obtain ⟨h1, h2, h3, h4, h5, h6, h7, h8⟩ := hext
  have hop : optTruthy (some path) = true := by simpa [optTruthy] using hne
  unfold processDocument processDocumentBody
  rw [hfp]
  simp [hpre, hop, h1, h2, h3, h4, h5, h6, h7, h8]

/-- C5 (witness): the dispatcher behaviour at the concrete extension
`.xyz`. -/
theorem c5_witness :
    (processDocument env0 stBad).1.error =
      some ("Error processing document: " ++
        ("Unsupported file type: " ++ pyLower (splitextExt "a.xyz"))) ∧
    (processDocument env0 stBad).2 = [] :=
  c5_unsupported_extension env0 stBad "a.xyz" rfl rfl (by decide) (by decide)

/-! ### Claim C10 -/

/-- C10 (counterexample): the claim fails for empty pre-processed content.
The empty string has fewer than 10 characters, but Python truthiness makes
`run` take the "no document provided" branch instead of returning the
"too short or empty" message. -/
theorem c10_counterexample :
    ("" : String).length < 10 ∧
    runAgent env0 "q" none (some "") = (noDocProvidedMsg, []) ∧
    noDocProvidedMsg ≠ tooShortMsg := by
  exact ⟨by decide, rfl, by decide⟩

/-- C10 (amended): for every call to `DocumentQAAgent.run` with *non-empty*
pre-processed content of fewer than 10 characters, `run` returns the fixed
"too short or empty" message and performs no external call — no extractor
runs and no LLM call is made. -/
theorem c10_short_content (env : Env) (q : String) (fp : Option String)
    (c : String) (hne : c ≠ "") (hlen : c.length < 10) :
    runAgent env q fp (some c) = (tooShortMsg, []) := by
  have hot : optTruthy (some c) = true := by simpa [optTruthy] using hne
  unfold runAgent
  simp [hot, hlen]

/-- C10 (witness): the short-content early return at a concrete input. -/
theorem c10_witness :
    runAgent env0 "q" none (some "short") = (tooShortMsg, []) :=
  c10_short_content env0 "q" none "short" (by decide) (by decide)

/-! ### Claim C2 -/

/-- C2 (counterexample): the claim is false as universally stated.  The
raw-content trigger check sits *after* the API-key check in
`answer_question`, so for a state whose question is the trigger phrase
`"raw content"` over non-empty content, but with no API key configured,
the returned answer is the API-key diagnostic — not the concatenated block
content (the LLM is still not invoked, but the content is not returned). -/
theorem c2_counterexample :
    triggerPhrases.contains (pyStrip (pyLower stTrig.question)) = true ∧
    concatContent (blocksOf stTrig) = "hello\n\n" ∧
    (answerQuestion envNoKey stTrig).1.answer = some apiKeyMsg ∧
    apiKeyMsg ≠ "hello\n\n" := by
  exact ⟨by decide, rfl, rfl, by decide⟩

/-- C2 (amended): for every state with a non-empty block list whose
concatenated content is not whitespace-only, *provided the API key is
configured*, a question that lowercases-and-trims to one of the trigger
phrases makes `answer_question` return the concatenated block content —
truncated to exactly its first 8000 characters when longer — with no
external call (in particular the LLM is never invoked). -/
theorem c2_amended (env : Env) (s : AgentState) (docs : List Document)
    (hd : s.documents = some docs) (hne : docs ≠ [])
    (hc : pyStrip (concatContent docs) ≠ "")
    (hkey : optTruthy env.groqApiKey = true)
    (htrig : triggerPhrases.contains (pyStrip (pyLower s.question)) = true) :
    (answerQuestion env s).1.answer =
      some (if (concatContent docs).length > 8000
            then pyTake (concatContent docs) 8000 else concatContent docs) ∧
    (answerQuestion env s).2 = [] := by
  have hie : docs.isEmpty = false := by
    cases docs with
    | nil => exact absurd rfl hne
    | cons a l => rfl
  have htrig' : pyStrip (pyLower s.question) ∈ triggerPhrases := by
    simpa using htrig
  unfold answerQuestion
  rw [hd]
  simp [hie, hc, hkey, htrig']

/-- C2 (witness): the amended statement at a concrete trigger question. -/
theorem c2_witness :
    (answerQuestion env0 stTrig).1.answer =
      some (if (concatContent [({ page_content := "hello" } : Document)]).length > 8000
            then pyTake (concatContent [{ page_content := "hello" }]) 8000
            else concatContent [{ page_content := "hello" }]) ∧
    (answerQuestion env0 stTrig).2 = [] :=
  c2_amended env0 stTrig [{ page_content := "hello" }] rfl (by decide)
    (by decide) (by decide) (by decide)

/-! ### Claim C8 -/

/-- C8 (confirmed): for every state with a non-empty block list whose
concatenated text is empty or whitespace-only, `answer_question` returns
the fixed "document is empty" message and performs no external call — in
particular the LLM is never invoked.  (This check precedes the API-key
check, so it holds in every environment.) -/
theorem c8_empty_content (env : Env) (s : AgentState) (docs : List Document)
    (hd : s.documents = some docs) (hne : docs ≠ [])
    (hws : pyStrip (concatContent docs) = "") :
    (answerQuestion env s).1.answer = some emptyDocMsg ∧
    (answerQuestion env s).2 = [] := by
  have hie : docs.isEmpty = false := by
    cases docs with
    | nil => exact absurd rfl hne
    | cons a l => rfl
  unfold answerQuestion
  rw [hd]
  simp [hie, hws]

/-- C8 (witness): the empty-content message at a concrete whitespace-only
document. -/
theorem c8_witness :
    (answerQuestion env0 stWs).1.answer = some emptyDocMsg ∧
    (answerQuestion env0 stWs).2 = [] :=
  c8_empty_content env0 stWs [{ page_content := " \n " }] rfl (by decide)
    (by decide)

/-! ### Claim C9 -/

/-- C9 (confirmed): whenever `answer_question` actually invokes the LLM,
the document content it passes is the concatenated block content truncated
to its first 25000 characters when longer (unchanged otherwise), and is in
every case at most 25000 characters long. -/
theorem c9_llm_truncation (env : Env) (s : AgentState) (c q : String)
    (h : ExtCall.llm c q ∈ (answerQuestion env s).2) :
    c.length ≤ 25000 ∧
    c = (if (concatContent (blocksOf s)).length > 25000
         then pyTake (concatContent (blocksOf s)) 25000
         else concatContent (blocksOf s)) := by
  unfold blocksOf
  unfold answerQuestion at h
  dsimp only at h
  split at h
  · simp at h
  · split at h
    · simp at h
    · split at h
      · simp at h
      · split at h
        · simp at h
        · split at h <;>
          · have h' := List.mem_singleton.mp h
            injection h' with hc hq
            subst hc
            refine ⟨?_, rfl⟩
            by_cases hl :
              (concatContent (s.documents.getD [])).length > 25000
            · simp only [hl, if_true]
              rw [pyTake_length]
              exact Nat.min_le_left _ _
            · simp only [hl, if_false]
              omega

/-- C9 (witness): the truncation property at a concrete LLM invocation. -/
theorem c9_witness :
    ("hi\n\n" : String).length ≤ 25000 ∧
    "hi\n\n" = (if (concatContent (blocksOf stLLM)).length > 25000
                then pyTake (concatContent (blocksOf stLLM)) 25000
                else concatContent (blocksOf stLLM)) :=
  c9_llm_truncation env0 stLLM "hi\n\n" "what" (by decide)

/-! ### Claim C3 -/

/-- C3 (counterexample): the claim is false as stated.  When the openpyxl
read fails with an `ImportError`, the `except ImportError` branch converts
it to a `ValueError` immediately: the extractor fails after only the
openpyxl engine was attempted — xlrd is never retried, so it does not
"fail only after both engines have been attempted". -/
theorem c3_counterexample :
    exceptIsOk (processExcel envC3c stQ "b.xlsx" ".xlsx").1 = false ∧
    (processExcel envC3c stQ "b.xlsx" ".xlsx").2 =
      [ExtCall.readExcel "openpyxl"] := by
  exact ⟨rfl, rfl⟩

/-- C3 (amended): when openpyxl is installed and the openpyxl read fails
with an ordinary (non-`ImportError`) exception, the extractor retries
exactly once with the xlrd engine — the call trace is exactly openpyxl
then xlrd — succeeds iff the xlrd read succeeds, and otherwise fails with
the combined both-engines error; but `ImportError` failures (openpyxl
missing, or the read itself raising `ImportError`) abort immediately
without attempting xlrd. -/
theorem c3_amended (env : Env) (s : AgentState) (path ext : String)
    (e : PyErr)
    (hinst : env.openpyxlInstalled = true)
    (hfail : env.readExcelOpenpyxl = .error e)
    (himp : e.isImport = false) :
    (processExcel env s path ext).2 =
      [ExtCall.readExcel "openpyxl", ExtCall.readExcel "xlrd"] ∧
    (∀ sheets, env.readExcelXlrd = .ok sheets →
      (processExcel env s path ext).1 = .ok (excelSuccess s path sheets)) ∧
    (∀ e2, env.readExcelXlrd = .error e2 →
      (processExcel env s path ext).1 = .error
        { isImport := false
          msg := "Error processing Excel file: Failed to process Excel file with both openpyxl and xlrd engines: "
            ++ e.msg ++ " and " ++ e2.msg }) := by
  rcases hx : env.readExcelXlrd with e2 | sheets <;>
    (unfold processExcel; rw [hfail, hx]; simp [hinst, himp])

/-- C3 (witness): the amended statement with both engines failing on
ordinary exceptions: both are attempted and the combined error results. -/
theorem c3_witness :
    (processExcel envC3w stQ "b.xlsx" ".xlsx").2 =
      [ExtCall.readExcel "openpyxl", ExtCall.readExcel "xlrd"] ∧
    (processExcel envC3w stQ "b.xlsx" ".xlsx").1 = .error
      { isImport := false
        msg := "Error processing Excel file: Failed to process Excel file with both openpyxl and xlrd engines: "
          ++ "boom" ++ " and " ++ "bad" } := by
  have h := c3_amended envC3w stQ "b.xlsx" ".xlsx"
    { isImport := false, msg := "boom" } rfl rfl rfl
  exact ⟨h.1, h.2.2 { isImport := false, msg := "bad" } rfl⟩

/-! ### Claim C6 -/

/-- C6 (confirmed): for every PDF in which every page yields empty or
whitespace-only text, the extractor attempts the pypandoc
(external-converter) fallback — its call appears in the trace — and the
extraction fails only when that fallback itself produced no non-whitespace
text (either because the conversion raised, or because it returned
whitespace-only output); if the fallback yields non-whitespace text the
extraction succeeds. -/
theorem c6_pdf_fallback (env : Env) (s : AgentState) (path : String)
    (pages : List String) (hp : env.pdfPages = .ok pages)
    (hws : ∀ p ∈ pages, pyStrip p = "") :
    (processPdf env s path).2 = [ExtCall.pdfRead, ExtCall.pandocConvertFile] ∧
    (exceptIsOk (processPdf env s path).1 = false ↔
      ∀ t, env.pandocConvert = .ok t → pyStrip t = "") := by
  have hprim : pdfPageDocs path 0 pages = [] :=
    pdfPageDocs_eq_nil path 0 pages hws
  unfold processPdf pdfSelectDocs
  rw [hp]
  dsimp only
  rw [hprim]
  rcases hpc : env.pandocConvert with e | t
  · constructor
    · simp
    · simp [exceptIsOk]
  · by_cases hst : pyStrip t = ""
    · constructor
      · simp [hst]
      · simp [hst, exceptIsOk]
    · constructor
      · simp [hst]
      · simp [hst, exceptIsOk]

/-- C6 (witness): the fallback-then-fail behaviour at a concrete scanned
PDF whose pandoc conversion also fails. -/
theorem c6_witness :
    (processPdf envC6 stQ "a.pdf").2 =
      [ExtCall.pdfRead, ExtCall.pandocConvertFile] ∧
    (exceptIsOk (processPdf envC6 stQ "a.pdf").1 = false ↔
      ∀ t, envC6.pandocConvert = .ok t → pyStrip t = "") :=
  c6_pdf_fallback envC6 stQ "a.pdf" ["  ", ""] rfl (by decide)

/-! ### Claim C7 -/

/-- C7 (counterexample): the claim is false as stated.  Extracting an
empty `.txt` file succeeds with exactly one block whose text is empty, so
the state contains no non-empty ContentBlock (while `content_length = 0`
still equals the sum of the block lengths). -/
theorem c7_counterexample :
    exceptIsOk (processText envTxtEmpty stQ "a.txt").1 = true ∧
    hasNonemptyBlock (okStateD (processText envTxtEmpty stQ "a.txt").1) = false ∧
    lenOKb (okStateD (processText envTxtEmpty stQ "a.txt").1) = true := by
  exact ⟨rfl, rfl, rfl⟩

theorem exceptIsOk_eq_ok (r : Except PyErr AgentState)
    (h : exceptIsOk r = true) : r = .ok (okStateD r) := by
  cases r with
  | error e => simp [exceptIsOk] at h
  | ok a => rfl

/-- C7 (amended): for every supported file type, successful extraction
satisfies `metadata.content_length = Σ len(block.text)`; the PDF and
PowerPoint extractors additionally always yield at least one non-empty
block, the Excel extractor yields one non-empty block per sheet (every
block non-empty, none when the workbook reports no sheets), while the
Word and text extractors yield exactly one block whose text may be empty
(e.g. an empty file). -/
theorem c7_amended (env : Env) (s : AgentState) (path ext : String) :
    (exceptIsOk (processExcel env s path ext).1 = true →
      lenOKb (okStateD (processExcel env s path ext).1) = true ∧
      allBlocksNonempty (okStateD (processExcel env s path ext).1) = true) ∧
    (exceptIsOk (processDocx env s path).1 = true →
      lenOKb (okStateD (processDocx env s path).1) = true ∧
      blockCount (okStateD (processDocx env s path).1) = 1) ∧
    (exceptIsOk (processDoc env s path).1 = true →
      lenOKb (okStateD (processDoc env s path).1) = true ∧
      blockCount (okStateD (processDoc env s path).1) = 1) ∧
    (exceptIsOk (processPdf env s path).1 = true →
      lenOKb (okStateD (processPdf env s path).1) = true ∧
      hasNonemptyBlock (okStateD (processPdf env s path).1) = true) ∧
    (exceptIsOk (processText env s path).1 = true →
      lenOKb (okStateD (processText env s path).1) = true ∧
      blockCount (okStateD (processText env s path).1) = 1) ∧
    (exceptIsOk (processPowerpoint env s path ext).1 = true →
      lenOKb (okStateD (processPowerpoint env s path ext).1) = true ∧
      blockCount (okStateD (processPowerpoint env s path ext).1) = 1 ∧
      hasNonemptyBlock (okStateD (processPowerpoint env s path ext).1) = true) := by
  refine ⟨fun h => ?_, fun h => ?_, fun h => ?_, fun h => ?_, fun h => ?_,
    fun h => ?_⟩
  · have hf := processExcel_ok_facts env s path ext _ (exceptIsOk_eq_ok _ h)
    exact ⟨hf.1, hf.2.1⟩
  · have hf := processDocx_ok_facts env s path _ (exceptIsOk_eq_ok _ h)
    exact ⟨hf.1, hf.2.1⟩
  · have hf := processDoc_ok_facts env s path _ (exceptIsOk_eq_ok _ h)
    exact ⟨hf.1, hf.2.1⟩
  · have hf := processPdf_ok_facts env s path _ (exceptIsOk_eq_ok _ h)
    exact ⟨hf.1, hf.2.1⟩
  · have hf := processText_ok_facts env s path _ (exceptIsOk_eq_ok _ h)
    exact ⟨hf.1, hf.2.1⟩
  · have hf := processPowerpoint_ok_facts env s path ext _ (exceptIsOk_eq_ok _ h)
    exact ⟨hf.1, hf.2.1, hf.2.2.1⟩

/-- C7 (witness): the amended statement at concrete successful text and
PDF extractions. -/
theorem c7_witness :
    (lenOKb (okStateD (processText env0 stQ "a.txt").1) = true ∧
     blockCount (okStateD (processText env0 stQ "a.txt").1) = 1) ∧
    (lenOKb (okStateD (processPdf env0 stQ "a.pdf").1) = true ∧
     hasNonemptyBlock (okStateD (processPdf env0 stQ "a.pdf").1) = true) := by
  exact ⟨(c7_amended env0 stQ "a.txt" ".txt").2.2.2.2.1 (by decide),
         (c7_amended env0 stQ "a.pdf" ".pdf").2.2.2.1 (by decide)⟩

end DocQA
